import Mathlib

/-!
Verification development for the contract-analyzer service.

The scanner in `src/enhanced_analysis.py` and `src/main.py` applies a fixed
catalog of Python regular expressions to document text with `re.finditer`
and `re.IGNORECASE`.  The catalog only uses a small fragment of regex
syntax: literal characters, the greedy gap `.*`, and greedy one-or-more
character classes (`\d+`, `[\d,]+`, `[A-Za-z\s]+`).  We embed exactly that
fragment with Python's leftmost, greedy, backtracking match semantics
(character classes are modelled over ASCII, which covers every catalog
pattern and every input considered here).
-/

/-- ASCII lower-casing on character codes (Python `re.IGNORECASE` over ASCII). -/
def lowN (n : Nat) : Nat := if 65 ≤ n && n ≤ 90 then n + 32 else n

/-- Case-insensitive character comparison, as `re.IGNORECASE` compares. -/
def ciEq (c d : Char) : Bool := lowN c.toNat == lowN d.toNat

/-- ASCII digit, the `\d` class of the catalog patterns. -/
def isDigC (c : Char) : Bool := 48 ≤ c.toNat && c.toNat ≤ 57

/-- The `[\d,]` class of the monetary patterns. -/
def isMoneyC (c : Char) : Bool := isDigC c || c == ','

/-- Python `str.strip` / `\s` whitespace over ASCII: space, \t, \n, \r, \v, \f. -/
def isPySpace (c : Char) : Bool :=
  c == ' ' || c == '\t' || c == '\n' || c == '\r' || c.toNat == 11 || c.toNat == 12

/-- The `[A-Za-z\s]` class of the governing-law patterns. -/
def isAlphaSpaceC (c : Char) : Bool :=
  (65 ≤ c.toNat && c.toNat ≤ 90) || (97 ≤ c.toNat && c.toNat ≤ 122) || isPySpace c

/-- `.` in a pattern matches any character except a newline (no DOTALL). -/
def isDot (c : Char) : Bool := !(c == '\n')

/-- One element of a compiled catalog pattern:
a literal character (compared case-insensitively), the greedy gap `.*`,
or a greedy one-or-more character class such as `\d+`. -/
inductive RElem where
  | lit : Char → RElem
  | dotStar : RElem
  | plus : (Char → Bool) → RElem

/-- Compile a literal fragment of a pattern. -/
def lits (s : String) : List RElem := s.data.map RElem.lit

/-- The greedy gap `.*`. -/
def star : RElem := RElem.dotStar

/-- The group `(\d+)` / bare `\d+` (grouping does not affect `group(0)` spans). -/
def dplus : RElem := RElem.plus isDigC

/-- The monetary tail `\$[\d,]+` (also used for the group `(\$[\d,]+)`). -/
def moneyPat : List RElem := [RElem.lit '$', RElem.plus isMoneyC]

/-- The group `([A-Za-z\s]+)`. -/
def alsp : RElem := RElem.plus isAlphaSpaceC

/-- Length of the maximal prefix whose characters satisfy `p`. -/
def countWhile (p : Char → Bool) : List Char → Nat
  | [] => 0
  | c :: cs => if p c then countWhile p cs + 1 else 0

/-- Greedy backtracking over a gap: try to consume `k` characters first,
then `k-1`, ... down to `0`, returning the total length on the first
success.  This is exactly the preference order of Python's greedy `*`. -/
def tryDesc (f : List Char → Option Nat) (ds : List Char) : Nat → Option Nat
  | 0 => f ds
  | k + 1 =>
    match f (ds.drop (k + 1)) with
    | some r => some (k + 1 + r)
    | none => tryDesc f ds k

/-- Matcher for a compiled pattern anchored at the head of the text:
returns the number of characters consumed by the match Python's
backtracking engine prefers (leftmost, greedy), or `none`. -/
def seqSem : List RElem → (List Char → Option Nat)
  | [] => fun _ => some 0
  | .lit c :: ps => fun ds =>
      match ds with
      | [] => none
      | d :: ds' => if ciEq c d then (seqSem ps ds').map (· + 1) else none
  | .dotStar :: ps => fun ds => tryDesc (seqSem ps) ds (countWhile isDot ds)
  | .plus p :: ps => fun ds =>
      match ds with
      | [] => none
      | d :: ds' =>
        if p d then (tryDesc (seqSem ps) ds' (countWhile p ds')).map (· + 1) else none

/-- `re.finditer` scan: at each position try the anchored matcher; on a
match of positive length emit its span and resume at the match end, on an
empty match emit and advance one position, otherwise advance one position.
The fuel argument is `remaining length + 1`, enough for the whole scan. -/
def finditerAux (pat : List RElem) : Nat → List Char → Nat → List (Nat × Nat)
  | 0, _, _ => []
  | fuel + 1, ds, i =>
    match seqSem pat ds with
    | some len =>
      if len == 0 then
        (i, i) :: (match ds with
          | [] => []
          | _ :: ds' => finditerAux pat fuel ds' (i + 1))
      else (i, i + len) :: finditerAux pat fuel (ds.drop len) (i + len)
    | none =>
      match ds with
      | [] => []
      | _ :: ds' => finditerAux pat fuel ds' (i + 1)

/-- All non-overlapping matches of a pattern, as `(start, end)` spans,
in left-to-right order — the embedding of `re.finditer(pattern, content, re.IGNORECASE)`. -/
def finditer (pat : List RElem) (cs : List Char) : List (Nat × Nat) :=
  finditerAux pat (cs.length + 1) cs 0

/-- `re.search`: the first match, if any. -/
def re_search (pat : List RElem) (cs : List Char) : Option (Nat × Nat) :=
  (finditer pat cs).head?

/-- ASCII lower-casing of a character (Python `str.lower` over ASCII). -/
def lowerC (c : Char) : Char :=
  if 65 ≤ c.toNat && c.toNat ≤ 90 then Char.ofNat (c.toNat + 32) else c

/-- Python `str.lower` (over ASCII). -/
def strLower (s : String) : String := String.mk (s.data.map lowerC)

/-- Python `str.strip`. -/
def pyStrip (cs : List Char) : List Char :=
  ((cs.dropWhile isPySpace).reverse.dropWhile isPySpace).reverse

/-- Does `needle` occur at the head of the text? -/
def startsList : List Char → List Char → Bool
  | [], _ => true
  | _ :: _, [] => false
  | a :: as, b :: bs => a == b && startsList as bs

/-- Substring occurrence test (used to check the summary wording). -/
def containsSub (needle : List Char) : List Char → Bool
  | [] => startsList needle []
  | c :: cs => startsList needle (c :: cs) || containsSub needle cs

/-!
Data model and catalog, from `src/enhanced_analysis.py`
(`EnhancedContractAnalyzer.__init__`, lines 17-164).
-/

/-- Severity value table `{"low": 1, "medium": 2, "high": 3}` (lines 338, 386).
The catalog only ever holds these three severities, so the lookup never
raises; the default arm is unreachable for catalog rules. -/
def sevVal : String → Nat
  | "low" => 1
  | "medium" => 2
  | "high" => 3
  | _ => 0

/-- One risk rule of `self.risk_patterns`: regex list, category, severity, weight. -/
structure RuleConfig where
  patterns : List (List RElem)
  category : String
  severity : String
  weight : Nat

/-- One compliance rule of `self.compliance_patterns`. -/
structure ComplianceConfig where
  patterns : List (List RElem)
  regulation : String
  status : String
  weight : Nat

/-- The dict appended to `risks` for each match in `analyze_risks` (lines 394-403). -/
structure Finding where
  category : String
  severity : String
  description : String
  clause : String
  pattern_matched : String
  monetary_value : Option String
  risk_score : Nat
  recommendation : String
deriving DecidableEq

/-- The dict appended to `compliance_issues` in `analyze_compliance` (lines 419-427). -/
structure ComplianceFinding where
  regulation : String
  status : String
  description : String
  clause : String
  pattern_matched : String
  weight : Nat
  recommendation : String
deriving DecidableEq

-- "payment_terms" rule: patterns
--   payment.*due.*(\d+).*days | late.*payment.*(\d+%) | interest.*charge.*(\d+%)
--   | penalty.*(\d+%) | default.*rate.*(\d+%)
def payment_terms : RuleConfig :=
  ⟨[lits "payment" ++ [star] ++ lits "due" ++ [star, dplus, star] ++ lits "days",
    lits "late" ++ [star] ++ lits "payment" ++ [star, dplus] ++ lits "%",
    lits "interest" ++ [star] ++ lits "charge" ++ [star, dplus] ++ lits "%",
    lits "penalty" ++ [star, dplus] ++ lits "%",
    lits "default" ++ [star] ++ lits "rate" ++ [star, dplus] ++ lits "%"],
   "Payment Terms", "medium", 2⟩

-- "liability" rule: patterns
--   limitation.*liability | total.*liability.*not.*exceed.*(\$[\d,]+)
--   | damages.*limited.*(\$[\d,]+) | exclude.*consequential.*damages
--   | indemnification.*unlimited
def liability : RuleConfig :=
  ⟨[lits "limitation" ++ [star] ++ lits "liability",
    lits "total" ++ [star] ++ lits "liability" ++ [star] ++ lits "not" ++ [star] ++
      lits "exceed" ++ [star] ++ moneyPat,
    lits "damages" ++ [star] ++ lits "limited" ++ [star] ++ moneyPat,
    lits "exclude" ++ [star] ++ lits "consequential" ++ [star] ++ lits "damages",
    lits "indemnification" ++ [star] ++ lits "unlimited"],
   "Liability Limitations", "high", 3⟩

-- "termination" rule: patterns
--   terminate.*(\d+).*days.*notice | termination.*without.*cause
--   | immediate.*termination | breach.*(\d+).*days.*cure | material.*breach
def termination : RuleConfig :=
  ⟨[lits "terminate" ++ [star, dplus, star] ++ lits "days" ++ [star] ++ lits "notice",
    lits "termination" ++ [star] ++ lits "without" ++ [star] ++ lits "cause",
    lits "immediate" ++ [star] ++ lits "termination",
    lits "breach" ++ [star, dplus, star] ++ lits "days" ++ [star] ++ lits "cure",
    lits "material" ++ [star] ++ lits "breach"],
   "Termination Clauses", "medium", 2⟩

-- pattern trade.*secrets (named so theorems can cite it)
def pat_trade_secrets : List RElem := lits "trade" ++ [star] ++ lits "secrets"

-- "confidentiality" rule: patterns
--   confidential.*information | non-disclosure.*(\d+).*years | trade.*secrets
--   | proprietary.*information | return.*confidential.*information
def confidentiality : RuleConfig :=
  ⟨[lits "confidential" ++ [star] ++ lits "information",
    lits "non-disclosure" ++ [star, dplus, star] ++ lits "years",
    pat_trade_secrets,
    lits "proprietary" ++ [star] ++ lits "information",
    lits "return" ++ [star] ++ lits "confidential" ++ [star] ++ lits "information"],
   "Confidentiality", "low", 1⟩

-- "intellectual_property" rule: patterns
--   intellectual.*property | copyright.*assignment | patent.*rights
--   | trademark.*usage | work.*for.*hire
def intellectual_property : RuleConfig :=
  ⟨[lits "intellectual" ++ [star] ++ lits "property",
    lits "copyright" ++ [star] ++ lits "assignment",
    lits "patent" ++ [star] ++ lits "rights",
    lits "trademark" ++ [star] ++ lits "usage",
    lits "work" ++ [star] ++ lits "for" ++ [star] ++ lits "hire"],
   "Intellectual Property", "high", 3⟩

-- "data_protection" rule: patterns
--   personal.*data | data.*protection | privacy.*policy | gdpr.*compliance
--   | data.*breach.*notification
def data_protection : RuleConfig :=
  ⟨[lits "personal" ++ [star] ++ lits "data",
    lits "data" ++ [star] ++ lits "protection",
    lits "privacy" ++ [star] ++ lits "policy",
    lits "gdpr" ++ [star] ++ lits "compliance",
    lits "data" ++ [star] ++ lits "breach" ++ [star] ++ lits "notification"],
   "Data Protection", "high", 3⟩

-- "force_majeure" rule: patterns
--   force.*majeure | act.*of.*god | unforeseen.*circumstances
--   | beyond.*reasonable.*control
def force_majeure : RuleConfig :=
  ⟨[lits "force" ++ [star] ++ lits "majeure",
    lits "act" ++ [star] ++ lits "of" ++ [star] ++ lits "god",
    lits "unforeseen" ++ [star] ++ lits "circumstances",
    lits "beyond" ++ [star] ++ lits "reasonable" ++ [star] ++ lits "control"],
   "Force Majeure", "low", 1⟩

-- "governing_law" rule: patterns
--   governing.*law.*([A-Za-z\s]+) | jurisdiction.*([A-Za-z\s]+)
--   | venue.*([A-Za-z\s]+) | dispute.*resolution
def governing_law : RuleConfig :=
  ⟨[lits "governing" ++ [star] ++ lits "law" ++ [star, alsp],
    lits "jurisdiction" ++ [star, alsp],
    lits "venue" ++ [star, alsp],
    lits "dispute" ++ [star] ++ lits "resolution"],
   "Governing Law", "medium", 2⟩

/-- `self.risk_patterns`, in dict insertion order (lines 17-112). -/
def risk_patterns : List RuleConfig :=
  [payment_terms, liability, termination, confidentiality,
   intellectual_property, data_protection, force_majeure, governing_law]

-- "gdpr": personal.*data.*processing | data.*subject.*rights
--   | data.*protection.*officer | privacy.*impact.*assessment | right.*to.*erasure
def gdpr : ComplianceConfig :=
  ⟨[lits "personal" ++ [star] ++ lits "data" ++ [star] ++ lits "processing",
    lits "data" ++ [star] ++ lits "subject" ++ [star] ++ lits "rights",
    lits "data" ++ [star] ++ lits "protection" ++ [star] ++ lits "officer",
    lits "privacy" ++ [star] ++ lits "impact" ++ [star] ++ lits "assessment",
    lits "right" ++ [star] ++ lits "to" ++ [star] ++ lits "erasure"],
   "GDPR", "check", 3⟩

-- "sox": financial.*reporting | internal.*controls | audit.*committee
--   | material.*weakness | disclosure.*controls
def sox : ComplianceConfig :=
  ⟨[lits "financial" ++ [star] ++ lits "reporting",
    lits "internal" ++ [star] ++ lits "controls",
    lits "audit" ++ [star] ++ lits "committee",
    lits "material" ++ [star] ++ lits "weakness",
    lits "disclosure" ++ [star] ++ lits "controls"],
   "SOX", "check", 3⟩

-- "hipaa": health.*information | medical.*records | phi.*protected.*health
--   | privacy.*rule | security.*rule
def hipaa : ComplianceConfig :=
  ⟨[lits "health" ++ [star] ++ lits "information",
    lits "medical" ++ [star] ++ lits "records",
    lits "phi" ++ [star] ++ lits "protected" ++ [star] ++ lits "health",
    lits "privacy" ++ [star] ++ lits "rule",
    lits "security" ++ [star] ++ lits "rule"],
   "HIPAA", "check", 3⟩

-- "ccpa": california.*privacy | consumer.*privacy.*act | right.*to.*know
--   | right.*to.*delete | opt.*out.*sale
def ccpa : ComplianceConfig :=
  ⟨[lits "california" ++ [star] ++ lits "privacy",
    lits "consumer" ++ [star] ++ lits "privacy" ++ [star] ++ lits "act",
    lits "right" ++ [star] ++ lits "to" ++ [star] ++ lits "know",
    lits "right" ++ [star] ++ lits "to" ++ [star] ++ lits "delete",
    lits "opt" ++ [star] ++ lits "out" ++ [star] ++ lits "sale"],
   "CCPA", "check", 2⟩

/-- `self.compliance_patterns`, in dict insertion order (lines 115-164). -/
def compliance_patterns : List ComplianceConfig := [gdpr, sox, hipaa, ccpa]

/-!
Operations of `EnhancedContractAnalyzer` (`src/enhanced_analysis.py`).
-/

/-- `_generate_recommendation` (lines 431-476): pure lookup keyed by
(category, severity), with the generic fallback string for unmapped pairs. -/
def generate_recommendation (category severity : String) : String :=
  match category, severity with
  | "Payment Terms", "low" => "STANDARD: Payment terms appear reasonable. Verify they align with your cash flow requirements and business operations."
  | "Payment Terms", "medium" => "IMPORTANT: Review payment schedule and late fee structure. Consider negotiating 30-60 day payment terms with reasonable late fees (1-2% per month)."
  | "Payment Terms", "high" => "CRITICAL: Immediate attention required. Negotiate payment terms to 30-60 days with late fees capped at 1-2% per month. Request grace period and milestone-based payments for large contracts."
  | "Liability Limitations", "low" => "STANDARD: Liability terms appear reasonable. Consider liability insurance coverage for additional protection."
  | "Liability Limitations", "medium" => "IMPORTANT: Review liability limitations and ensure they\x27re reasonable for your business. Negotiate liability caps and request mutual indemnification."
  | "Liability Limitations", "high" => "CRITICAL: Require legal review before signing. Request liability caps of 12-24 months of contract value. Include mutual indemnification and limit consequential damages."
  | "Termination Clauses", "low" => "STANDARD: Termination terms appear reasonable. Ensure adequate notice periods align with your business needs."
  | "Termination Clauses", "medium" => "IMPORTANT: Negotiate termination rights and cure periods. Request 30-60 day notice periods and define material breach clearly."
  | "Termination Clauses", "high" => "CRITICAL: Review termination provisions carefully. Negotiate 30-60 day notice periods, include cure periods for breaches, and request mutual termination rights."
  | "Confidentiality", "low" => "STANDARD: Confidentiality terms appear appropriate for the business relationship. Ensure scope is reasonable."
  | "Confidentiality", "medium" => "REVIEW: Review confidentiality scope and duration. Limit confidentiality period to 3-5 years and include exceptions for public information."
  | "Confidentiality", "high" => "IMPORTANT: Ensure adequate protection of sensitive information. Limit confidentiality scope to essential information only and include return/destruction requirements."
  | "Intellectual Property", "low" => "STANDARD: IP terms appear reasonable. Clarify IP ownership terms and ensure you retain rights to background IP."
  | "Intellectual Property", "medium" => "IMPORTANT: Negotiate IP rights and licensing terms. Request license to use deliverables and protect existing IP rights."
  | "Intellectual Property", "high" => "CRITICAL: Require legal review of IP provisions. Protect existing IP and limit assignment requirements. Define IP ownership clearly."
  | "Data Protection", "low" => "STANDARD: Data protection terms appear adequate. Ensure basic data protection measures are in place."
  | "Data Protection", "medium" => "IMPORTANT: Implement comprehensive data protection policies. Review data handling requirements and ensure GDPR/CCPA compliance."
  | "Data Protection", "high" => "CRITICAL: Require data protection officer review. Ensure GDPR/CCPA compliance with data breach notification, retention limits, and usage restrictions."
  | "Force Majeure", "low" => "STANDARD: Force majeure terms appear appropriate for the contract type. Ensure scope is reasonable."
  | "Force Majeure", "medium" => "REVIEW: Review force majeure provisions and ensure they\x27re reasonable. Include reasonable notice requirements."
  | "Force Majeure", "high" => "IMPORTANT: Define force majeure events clearly and limit scope to truly unforeseeable events. Include reasonable notice requirements."
  | "Governing Law", "low" => "STANDARD: Governing law appears appropriate for the contract. Verify jurisdiction implications."
  | "Governing Law", "medium" => "REVIEW: Review governing law and venue carefully. Ensure they\x27re appropriate for your business operations."
  | "Governing Law", "high" => "IMPORTANT: Consider jurisdiction implications and ensure dispute resolution is reasonable. Review choice of law carefully."
  | _, _ => "Seek legal review to ensure terms are appropriate for your business needs."

/-- The context captured around a match (lines 380-383):
`start = max(0, match.start() - w)`, `end = min(len(content), match.end() + w)`,
`context = content[start:end].strip()`.  Natural-number subtraction gives the
`max(0, ...)` clamp.  The enhanced analyzer uses `w = 100`, the basic
endpoint in `src/main.py` uses `w = 50`. -/
def windowClause (cs : List Char) (s e w : Nat) : String :=
  let a := s - w
  let b := min cs.length (e + w)
  String.mk (pyStrip ((cs.drop a).take (b - a)))

/-- The context window as the specification words it: the raw substring of
the source text from `w` characters before the match start to `w` after the
match end, clipped to the text boundaries — with no whitespace stripping.
(Spec-side definition, for comparison with `windowClause`.) -/
def specWindow (cs : List Char) (s e w : Nat) : String :=
  String.mk ((cs.drop (s - w)).take (min cs.length (e + w) - (s - w)))

/-- The finding built for one match in `analyze_risks` (lines 379-403):
context window, severity-weighted score, optional `\$[\d,]+` annotation
searched inside `match.group(0)`, and the canned recommendation. -/
def mkFinding (cfg : RuleConfig) (cs : List Char) (m : Nat × Nat) : Finding :=
  let g0 := (cs.drop m.1).take (m.2 - m.1)
  let monetary := re_search moneyPat g0
  ⟨cfg.category, cfg.severity,
   "Potential " ++ strLower cfg.category ++ " risk detected",
   windowClause cs m.1 m.2 100,
   String.mk g0,
   monetary.map (fun mm => String.mk ((g0.drop mm.1).take (mm.2 - mm.1))),
   cfg.weight * sevVal cfg.severity,
   generate_recommendation cfg.category cfg.severity⟩

/-- `analyze_risks` (lines 371-405): for every rule, for every pattern,
for every match, append one finding and add `weight * severity_score`
to the running total; returns `(risks, total_risk_score)`. -/
def analyze_risks (content : String) : List Finding × Nat :=
  let cs := content.data
  risk_patterns.foldl
    (fun acc cfg =>
      cfg.patterns.foldl
        (fun acc pat =>
          (finditer pat cs).foldl
            (fun acc m =>
              (acc.1 ++ [mkFinding cfg cs m], acc.2 + cfg.weight * sevVal cfg.severity))
            acc)
        acc)
    ([], 0)

/-- The compliance issue built for one match in `analyze_compliance` (lines 414-427). -/
def mkComplianceFinding (cfg : ComplianceConfig) (cs : List Char) (m : Nat × Nat) :
    ComplianceFinding :=
  let g0 := (cs.drop m.1).take (m.2 - m.1)
  ⟨cfg.regulation, cfg.status,
   "Potential " ++ cfg.regulation ++ " compliance requirement",
   windowClause cs m.1 m.2 100,
   String.mk g0,
   cfg.weight,
   "Review " ++ cfg.regulation ++ " compliance requirements with legal counsel"⟩

/-- `analyze_compliance` (lines 407-429). -/
def analyze_compliance (content : String) : List ComplianceFinding :=
  let cs := content.data
  compliance_patterns.foldl
    (fun acc cfg =>
      cfg.patterns.foldl
        (fun acc pat =>
          (finditer pat cs).foldl (fun acc m => acc ++ [mkComplianceFinding cfg cs m]) acc)
        acc)
    []

/-- `calculate_risk_level` (lines 478-489): fixed thresholds 20/15/10/5. -/
def calculate_risk_level (risk_score : Nat) : String :=
  if risk_score ≥ 20 then "CRITICAL"
  else if risk_score ≥ 15 then "HIGH"
  else if risk_score ≥ 10 then "MEDIUM"
  else if risk_score ≥ 5 then "LOW"
  else "MINIMAL"

/-- Rank of a risk level, for stating monotonicity of the step function. -/
def levelRank : String → Nat
  | "MINIMAL" => 0
  | "LOW" => 1
  | "MEDIUM" => 2
  | "HIGH" => 3
  | "CRITICAL" => 4
  | _ => 5

/-- Insertion-ordered occurrence counting: the Python dict built by
`risk_categories[category] += 1` keeps first-appearance key order. -/
def bump (k : String) : List (String × Nat) → List (String × Nat)
  | [] => [(k, 1)]
  | (k', n) :: rest => if k' == k then (k', n + 1) :: rest else (k', n) :: bump k rest

/-- Histogram in first-appearance order (a Python insertion-ordered dict). -/
def orderedCounts (ks : List String) : List (String × Nat) :=
  ks.foldl (fun acc k => bump k acc) []

/-- Stable descending insertion by count: a new item goes after every item
with a greater-or-equal count, which is exactly the tie behaviour of
Python's stable `sorted(..., key=lambda x: x[1], reverse=True)`. -/
def insertDesc (x : String × Nat) : List (String × Nat) → List (String × Nat)
  | [] => [x]
  | y :: ys => if x.2 ≤ y.2 then y :: insertDesc x ys else x :: y :: ys

/-- Stable sort by descending count. -/
def sortByCountDesc (l : List (String × Nat)) : List (String × Nat) :=
  l.foldl (fun acc x => insertDesc x acc) []

/-- `generate_summary` (lines 491-543). -/
def generate_summary (risks : List Finding) (compliance : List ComplianceFinding)
    (risk_score : Nat) : String :=
  let risk_level := calculate_risk_level risk_score
  let base := "This comprehensive contract analysis reveals a " ++ strLower risk_level ++
    " risk profile with a risk score of " ++ toString risk_score ++ "/30. "
  let riskPart :=
    if risks.isEmpty then "No significant risks were detected in this contract. "
    else
      let high_risks := risks.filter (fun r => r.severity == "high")
      let medium_risks := risks.filter (fun r => r.severity == "medium")
      let low_risks := risks.filter (fun r => r.severity == "low")
      let counts := "The analysis identified " ++ toString risks.length ++
        " risk factors: " ++ toString high_risks.length ++ " high-priority, " ++
        toString medium_risks.length ++ " medium-priority, and " ++
        toString low_risks.length ++ " low-priority items. "
      let risk_categories := orderedCounts (risks.map (fun r => r.category))
      let catPart :=
        if risk_categories.isEmpty then ""
        else
          let top_categories := (sortByCountDesc risk_categories).take 3
          "Key risk areas include: " ++
            String.intercalate ", " (top_categories.map (fun c => c.1)) ++ ". "
      counts ++ catPart
  let compliancePart :=
    if compliance.isEmpty then "No specific compliance issues were identified. "
    else
      "Compliance considerations include: " ++
        String.intercalate ", "
          ((orderedCounts (compliance.map (fun c => c.regulation))).map (fun c => c.1)) ++ ". "
  let strategic :=
    if risk_level == "CRITICAL" || risk_level == "HIGH" then
      "STRATEGIC RECOMMENDATION: This contract requires immediate legal review and extensive negotiations. Consider requesting substantial modifications or walking away if terms cannot be improved. Focus on liability limitations, payment terms, and termination clauses."
    else if risk_level == "MEDIUM" then
      "STRATEGIC RECOMMENDATION: This contract has some concerning terms but is generally negotiable. Focus on the highest-risk items while accepting reasonable terms on others. Prioritize negotiation of liability caps and payment terms."
    else
      "STRATEGIC RECOMMENDATION: This contract appears to have reasonable terms. Minor negotiations may be beneficial but are not critical. Focus on ensuring all terms are clearly understood and documented."
  base ++ riskPart ++ compliancePart ++ strategic

/-!
Text decoding (`parse_text`, lines 188-196) over raw bytes.
-/

/-- Strict UTF-8 decoding of a byte sequence, as `bytes.decode('utf-8')`:
rejects stray continuation bytes, overlong encodings, surrogate code
points, and code points above U+10FFFF. -/
def utf8Decode : List Nat → Option (List Char)
  | [] => some []
  | b :: bs =>
    if b < 0x80 then
      match utf8Decode bs with
      | some cs => some (Char.ofNat b :: cs)
      | none => none
    else if b < 0xC2 then none
    else if b < 0xE0 then
      match bs with
      | b1 :: bs' =>
        if 0x80 ≤ b1 && b1 < 0xC0 then
          match utf8Decode bs' with
          | some cs => some (Char.ofNat ((b - 0xC0) * 0x40 + (b1 - 0x80)) :: cs)
          | none => none
        else none
      | [] => none
    else if b < 0xF0 then
      match bs with
      | b1 :: b2 :: bs' =>
        if (0x80 ≤ b1 && b1 < 0xC0) && (0x80 ≤ b2 && b2 < 0xC0) &&
           !(b == 0xE0 && b1 < 0xA0) && !(b == 0xED && 0xA0 ≤ b1) then
          match utf8Decode bs' with
          | some cs =>
            some (Char.ofNat ((b - 0xE0) * 0x1000 + (b1 - 0x80) * 0x40 + (b2 - 0x80)) :: cs)
          | none => none
        else none
      | _ => none
    else if b < 0xF5 then
      match bs with
      | b1 :: b2 :: b3 :: bs' =>
        if (0x80 ≤ b1 && b1 < 0xC0) && (0x80 ≤ b2 && b2 < 0xC0) &&
           (0x80 ≤ b3 && b3 < 0xC0) &&
           !(b == 0xF0 && b1 < 0x90) && !(b == 0xF4 && 0x90 ≤ b1) then
          match utf8Decode bs' with
          | some cs =>
            some (Char.ofNat ((b - 0xF0) * 0x40000 + (b1 - 0x80) * 0x1000 +
              (b2 - 0x80) * 0x40 + (b3 - 0x80)) :: cs)
          | none => none
        else none
      | _ => none
    else none

/-- Latin-1 decoding, as `bytes.decode('latin-1')`: every byte value maps
directly to the code point of the same value, so it succeeds on every
byte sequence (the guard fails only on non-byte inputs, a modelling
artifact — real byte values are below 256). -/
def latin1Decode (bs : List Nat) : Option (List Char) :=
  if bs.all (· < 256) then some (bs.map Char.ofNat) else none

/-- `parse_text` (lines 188-196): try UTF-8, on `UnicodeDecodeError` try
Latin-1, and only if that also failed return the literal decode-failure
string instead of raising. -/
def parse_text (file_content : List Nat) : String :=
  match utf8Decode file_content with
  | some cs => String.mk cs
  | none =>
    match latin1Decode file_content with
    | some cs => String.mk cs
    | none => "Error decoding text file"

/-!
External-model bridge (`analyze_with_huggingface`, lines 209-302, and
`analyze_risks_with_ai`, lines 353-369).  The HTTP transport and the JSON
body are external collaborators; what the bridge observably yields is
either a parsed result or `None`.  We model the credential check, the
transport outcome, and the status check faithfully, and abstract the
success-path body parsing (JSON extraction / `create_structured_response_from_text`)
as a parameter, since the claims under verification concern only the
failure side.
-/

/-- The fields of the bridge result that `analyze_risks_with_ai` reads:
`huggingface_result.get("risks", [])` and `.get("risk_score", 0)`. -/
structure HFAnalysis where
  risks : List Finding
  risk_score : Nat

/-- `analyze_with_huggingface`: raises (and then catches, returning `None`)
when the API key is unset or empty (`if not self.huggingface_api_key`),
when the HTTP request fails in transport, or when the response status is
not 200; otherwise parses the response body. -/
def analyze_with_huggingface (api_key : Option String)
    (response : Except Unit (Nat × String))
    (parseBody : String → String → HFAnalysis) (content : String) : Option HFAnalysis :=
  match api_key with
  | none => none
  | some k =>
    if k = "" then none
    else
      match response with
      | .error _ => none
      | .ok (status, body) =>
        if status = 200 then some (parseBody body content) else none

/-- `analyze_risks_with_ai`: use the bridge result when present, otherwise
fall back to the local pattern-matching path `analyze_risks`.  (The inner
`try` around the dict reads cannot fail for a parsed dict, so the only
fallback trigger is the bridge returning `None`.) -/
def analyze_risks_with_ai (api_key : Option String)
    (response : Except Unit (Nat × String))
    (parseBody : String → String → HFAnalysis) (content : String) : List Finding × Nat :=
  match analyze_with_huggingface api_key response parseBody content with
  | some r => (r.risks, r.risk_score)
  | none => analyze_risks content

/-!
The basic endpoint analyzer `analyze_contract_content` in `src/main.py`
(lines 53-191): its own smaller catalog, severity-only scoring, a 50
character context window, and a three-level risk mapping.
-/

namespace Main

/-- A rule of the basic analyzer's `risk_patterns`: no weight field. -/
structure MainRule where
  patterns : List (List RElem)
  category : String
  severity : String

/-- A rule of the basic analyzer's `compliance_patterns`. -/
structure MainComplianceRule where
  patterns : List (List RElem)
  regulation : String
  status : String

/-- A risk item of the basic analyzer (lines 141-147). -/
structure MainRisk where
  category : String
  severity : String
  description : String
  clause : String
  recommendation : String
deriving DecidableEq

/-- A compliance item of the basic analyzer (lines 161-166). -/
structure MainCompliance where
  regulation : String
  status : String
  description : String
  clause : String
deriving DecidableEq

/-- The dict returned by `analyze_contract_content` (lines 185-191). -/
structure MainResult where
  risk_level : String
  risk_score : Nat
  risks : List MainRisk
  compliance : List MainCompliance
  summary : String
deriving DecidableEq

-- "payment_terms": payment.*due.*\d+.*days | late.*payment.*\d+% | interest.*charge
def payment_terms : MainRule :=
  ⟨[lits "payment" ++ [star] ++ lits "due" ++ [star, dplus, star] ++ lits "days",
    lits "late" ++ [star] ++ lits "payment" ++ [star, dplus] ++ lits "%",
    lits "interest" ++ [star] ++ lits "charge"],
   "Payment Terms", "medium"⟩

-- "liability": limitation.*liability | total.*liability.*not.*exceed | damages.*limited
def liability : MainRule :=
  ⟨[lits "limitation" ++ [star] ++ lits "liability",
    lits "total" ++ [star] ++ lits "liability" ++ [star] ++ lits "not" ++ [star] ++ lits "exceed",
    lits "damages" ++ [star] ++ lits "limited"],
   "Liability Limitations", "high"⟩

-- "termination": terminate.*\d+.*days.*notice | termination.*without.*cause | immediate.*termination
def termination : MainRule :=
  ⟨[lits "terminate" ++ [star, dplus, star] ++ lits "days" ++ [star] ++ lits "notice",
    lits "termination" ++ [star] ++ lits "without" ++ [star] ++ lits "cause",
    lits "immediate" ++ [star] ++ lits "termination"],
   "Termination Clauses", "medium"⟩

-- "confidentiality": confidential.*information | non-disclosure | trade.*secrets
def confidentiality : MainRule :=
  ⟨[lits "confidential" ++ [star] ++ lits "information",
    lits "non-disclosure",
    pat_trade_secrets],
   "Confidentiality", "low"⟩

-- "intellectual_property": intellectual.*property | copyright | patent | trademark
def intellectual_property : MainRule :=
  ⟨[lits "intellectual" ++ [star] ++ lits "property",
    lits "copyright",
    lits "patent",
    lits "trademark"],
   "Intellectual Property", "high"⟩

/-- The basic analyzer's `risk_patterns` (lines 57-104), in dict order. -/
def risk_patterns : List MainRule :=
  [payment_terms, liability, termination, confidentiality, intellectual_property]

-- "gdpr": personal.*data | data.*protection | privacy
def gdpr : MainComplianceRule :=
  ⟨[lits "personal" ++ [star] ++ lits "data",
    lits "data" ++ [star] ++ lits "protection",
    lits "privacy"],
   "GDPR", "check"⟩

-- "sox": financial.*reporting | internal.*controls | audit
def sox : MainComplianceRule :=
  ⟨[lits "financial" ++ [star] ++ lits "reporting",
    lits "internal" ++ [star] ++ lits "controls",
    lits "audit"],
   "SOX", "check"⟩

-- "hipaa": health.*information | medical.*records | phi
def hipaa : MainComplianceRule :=
  ⟨[lits "health" ++ [star] ++ lits "information",
    lits "medical" ++ [star] ++ lits "records",
    lits "phi"],
   "HIPAA", "check"⟩

/-- The basic analyzer's `compliance_patterns` (lines 107-123). -/
def compliance_patterns : List MainComplianceRule := [gdpr, sox, hipaa]

/-- The risk item built for one match (lines 132-147): 50-character
context window (stripped), canned description and recommendation. -/
def mkMainRisk (cfg : MainRule) (cs : List Char) (m : Nat × Nat) : MainRisk :=
  ⟨cfg.category, cfg.severity,
   "Potential " ++ strLower cfg.category ++ " risk detected",
   windowClause cs m.1 m.2 50,
   "Review " ++ strLower cfg.category ++ " terms with legal counsel"⟩

/-- The compliance item built for one match (lines 155-166). -/
def mkMainCompliance (cfg : MainComplianceRule) (cs : List Char) (m : Nat × Nat) :
    MainCompliance :=
  ⟨cfg.regulation, cfg.status,
   "Potential " ++ cfg.regulation ++ " compliance requirement",
   windowClause cs m.1 m.2 50⟩

/-- `analyze_contract_content` (lines 53-191): per match the score grows
by the severity value alone (`risk_score += severity_score`, line 139 —
no rule weight), and the level is the three-way mapping of lines 168-174. -/
def analyze_contract_content (content : String) : MainResult :=
  let cs := content.data
  let rs :=
    risk_patterns.foldl
      (fun acc cfg =>
        cfg.patterns.foldl
          (fun acc pat =>
            (finditer pat cs).foldl
              (fun acc m => (acc.1 ++ [mkMainRisk cfg cs m], acc.2 + sevVal cfg.severity))
              acc)
          acc)
      ([], 0)
  let compliance :=
    compliance_patterns.foldl
      (fun acc cfg =>
        cfg.patterns.foldl
          (fun acc pat =>
            (finditer pat cs).foldl (fun acc m => acc ++ [mkMainCompliance cfg cs m]) acc)
          acc)
      []
  let risk_level := if rs.2 ≥ 10 then "HIGH" else if rs.2 ≥ 5 then "MEDIUM" else "LOW"
  let summary :=
    "Contract analysis completed. Risk level: " ++ risk_level ++ ". " ++
    "Found " ++ toString rs.1.length ++ " potential risk items and " ++
    toString compliance.length ++ " compliance considerations. " ++
    (if rs.2 > 0 then "Recommend legal review before signing."
     else "Contract appears to have standard terms.")
  ⟨risk_level, rs.2, rs.1, compliance, summary⟩

end Main


/-!
Structural lemmas: the nested scan folds equal their flattened
per-match form, and the aggregate score equals the per-match sum.
-/

theorem foldl_app {P F : Type} (f : P → List F) (v : P → Nat) (ps : List P) :
    ∀ acc : List F × Nat,
      ps.foldl (fun a p => (a.1 ++ f p, a.2 + v p)) acc
        = (acc.1 ++ (ps.map f).flatten, acc.2 + (ps.map v).sum) := by
  induction ps with
  | nil => intro acc; simp
  | cons p ps ih =>
    intro acc
    simp only [List.foldl_cons, ih, List.map_cons, List.flatten_cons, List.sum_cons]
    simp [List.append_assoc, Nat.add_assoc]

theorem sum_map_mul_right {P : Type} (f : P → Nat) (w : Nat) (l : List P) :
    (l.map (fun x => f x * w)).sum = (l.map f).sum * w := by
  induction l with
  | nil => simp
  | cons x xs ih => simp [ih, Nat.add_mul]

theorem foldl_scan_inner {F : Type} (h : Nat × Nat → F) (w : Nat) (ms : List (Nat × Nat)) :
    ∀ acc : List F × Nat,
      ms.foldl (fun a m => (a.1 ++ [h m], a.2 + w)) acc
        = (acc.1 ++ ms.map h, acc.2 + ms.length * w) := by
  induction ms with
  | nil => intro acc; simp
  | cons m ms ih =>
    intro acc
    simp only [List.foldl_cons, ih, List.map_cons, List.length_cons, Prod.mk.injEq]
    exact ⟨by simp, by ring⟩

theorem foldl_scan_mid {F : Type} (g : List RElem → List (Nat × Nat)) (h : Nat × Nat → F)
    (w : Nat) (ps : List (List RElem)) (acc : List F × Nat) :
      ps.foldl (fun a pat => (g pat).foldl (fun a m => (a.1 ++ [h m], a.2 + w)) a) acc
        = (acc.1 ++ (ps.map (fun pat => (g pat).map h)).flatten,
           acc.2 + (ps.map (fun pat => (g pat).length)).sum * w) := by
  simp only [foldl_scan_inner]
  rw [foldl_app, sum_map_mul_right]

theorem foldl_scan_outer {R F : Type} (pats : R → List (List RElem))
    (g : List RElem → List (Nat × Nat)) (w : R → Nat) (h : R → Nat × Nat → F)
    (rules : List R) (acc : List F × Nat) :
      rules.foldl
        (fun a cfg => (pats cfg).foldl
          (fun a pat => (g pat).foldl (fun a m => (a.1 ++ [h cfg m], a.2 + w cfg)) a) a) acc
        = (acc.1 ++
            (rules.map (fun cfg =>
              ((pats cfg).map (fun pat => (g pat).map (h cfg))).flatten)).flatten,
           acc.2 +
            (rules.map (fun cfg =>
              ((pats cfg).map (fun pat => (g pat).length)).sum * w cfg)).sum) := by
  simp only [foldl_scan_mid]
  rw [foldl_app]

theorem foldl_scan_outer0 {R F : Type} (pats : R → List (List RElem))
    (g : List RElem → List (Nat × Nat)) (w : R → Nat) (h : R → Nat × Nat → F)
    (rules : List R) :
      rules.foldl
        (fun a cfg => (pats cfg).foldl
          (fun a pat => (g pat).foldl (fun a m => (a.1 ++ [h cfg m], a.2 + w cfg)) a) a)
        (([] : List F), 0)
        = ((rules.map (fun cfg =>
              ((pats cfg).map (fun pat => (g pat).map (h cfg))).flatten)).flatten,
           (rules.map (fun cfg =>
              ((pats cfg).map (fun pat => (g pat).length)).sum * w cfg)).sum) := by
  rw [foldl_scan_outer]
  simp

/-- Elements of a flattened scan come from a rule, a pattern of that rule,
and a match of that pattern. -/
theorem mem_scan_flatten {R F : Type} (pats : R → List (List RElem))
    (g : List RElem → List (Nat × Nat)) (h : R → Nat × Nat → F) (rules : List R) :
    ∀ f ∈ (rules.map (fun cfg =>
        ((pats cfg).map (fun pat => (g pat).map (h cfg))).flatten)).flatten,
      ∃ cfg ∈ rules, ∃ pat ∈ pats cfg, ∃ m ∈ g pat, f = h cfg m := by
  intro f hf
  rw [List.mem_flatten] at hf
  obtain ⟨l, hl, hfl⟩ := hf
  rw [List.mem_map] at hl
  obtain ⟨cfg, hcfg, rfl⟩ := hl
  rw [List.mem_flatten] at hfl
  obtain ⟨l2, hl2, hf2⟩ := hfl
  rw [List.mem_map] at hl2
  obtain ⟨pat, hpat, rfl⟩ := hl2
  rw [List.mem_map] at hf2
  obtain ⟨m, hm, rfl⟩ := hf2
  exact ⟨cfg, hcfg, pat, hpat, m, hm, rfl⟩

theorem map_const_sum {F : Type} (h : Nat × Nat → F) (rs : F → Nat) (w : Nat)
    (hw : ∀ m, rs (h m) = w) (ms : List (Nat × Nat)) :
    ((ms.map h).map rs).sum = ms.length * w := by
  induction ms with
  | nil => simp
  | cons m ms ih =>
    simp only [List.map_cons, List.sum_cons, List.length_cons, ih, hw, Nat.succ_mul]
    ring

theorem flatten_score_sum_rule {F : Type} (g : List RElem → List (Nat × Nat))
    (h : Nat × Nat → F) (rs : F → Nat) (w : Nat) (hw : ∀ m, rs (h m) = w)
    (ps : List (List RElem)) :
    (((ps.map (fun pat => (g pat).map h)).flatten).map rs).sum
      = (ps.map (fun pat => (g pat).length)).sum * w := by
  induction ps with
  | nil => simp
  | cons p ps ih =>
    simp only [List.map_cons, List.flatten_cons, List.map_append, List.sum_append,
      List.sum_cons, ih, map_const_sum h rs w hw, Nat.add_mul]

theorem flatten_score_sum {R F : Type} (pats : R → List (List RElem))
    (g : List RElem → List (Nat × Nat)) (w : R → Nat) (h : R → Nat × Nat → F)
    (rs : F → Nat) (hw : ∀ cfg m, rs (h cfg m) = w cfg) (rules : List R) :
    ((rules.map (fun cfg =>
        ((pats cfg).map (fun pat => (g pat).map (h cfg))).flatten)).flatten.map rs).sum
      = (rules.map (fun cfg =>
          ((pats cfg).map (fun pat => (g pat).length)).sum * w cfg)).sum := by
  induction rules with
  | nil => simp
  | cons r rules ih =>
    simp only [List.map_cons, List.flatten_cons, List.map_append, List.sum_append,
      List.sum_cons, ih, flatten_score_sum_rule g (h r) rs (w r) (hw r)]

theorem flatten_scan_length {R F : Type} (pats : R → List (List RElem))
    (g : List RElem → List (Nat × Nat)) (h : R → Nat × Nat → F) (rules : List R) :
    ((rules.map (fun cfg =>
        ((pats cfg).map (fun pat => (g pat).map (h cfg))).flatten)).flatten).length
      = (rules.map (fun cfg =>
          ((pats cfg).map (fun pat => (g pat).length)).sum)).sum := by
  simp [List.length_flatten, List.map_map, Function.comp_def, List.length_map]

/-- The scanner's finding list in flattened per-match form: rule by rule
(catalog order), pattern by pattern, match by match. -/
def allFindings (content : String) : List Finding :=
  (risk_patterns.map (fun cfg =>
    (cfg.patterns.map (fun pat =>
      (finditer pat content.data).map (mkFinding cfg content.data))).flatten)).flatten

/-- The aggregate score as the specification words it: the sum over every
match of every pattern of every rule of `weight × severity_value`. -/
def claimScore (content : String) : Nat :=
  (risk_patterns.map (fun cfg =>
    ((cfg.patterns.map (fun pat => (finditer pat content.data).length)).sum) *
      (cfg.weight * sevVal cfg.severity))).sum

/-- `analyze_risks` computes exactly the flattened finding list and the
per-match weighted sum. -/
theorem analyze_risks_eq (content : String) :
    analyze_risks content = (allFindings content, claimScore content) :=
  foldl_scan_outer0 RuleConfig.patterns (fun pat => finditer pat content.data)
    (fun cfg => cfg.weight * sevVal cfg.severity) (fun cfg m => mkFinding cfg content.data m)
    risk_patterns

/-- The basic analyzer's risk list in flattened per-match form. -/
def mainFindings (content : String) : List Main.MainRisk :=
  (Main.risk_patterns.map (fun cfg =>
    (cfg.patterns.map (fun pat =>
      (finditer pat content.data).map (Main.mkMainRisk cfg content.data))).flatten)).flatten

/-- The basic analyzer's score: per match the severity value alone, with
no rule-weight factor (`src/main.py` line 139). -/
def mainClaimScore (content : String) : Nat :=
  (Main.risk_patterns.map (fun cfg =>
    ((cfg.patterns.map (fun pat => (finditer pat content.data).length)).sum) *
      sevVal cfg.severity)).sum

/-- The basic analyzer's risks and score in flattened per-match form. -/
theorem main_scan_eq (content : String) :
    (Main.analyze_contract_content content).risks = mainFindings content ∧
    (Main.analyze_contract_content content).risk_score = mainClaimScore content := by
  have hscan := foldl_scan_outer0 Main.MainRule.patterns (fun pat => finditer pat content.data)
    (fun cfg => sevVal cfg.severity) (fun cfg m => Main.mkMainRisk cfg content.data m)
    Main.risk_patterns
  exact ⟨congrArg Prod.fst hscan, congrArg Prod.snd hscan⟩

/-!
Claim theorems.
-/

/-- Claim C1: for every input text, the aggregate risk score returned by
`analyze_risks` equals the sum, over every regex match of every pattern of
every rule in the risk catalog, of the rule's weight times the severity
value of the rule's severity (low=1, medium=2, high=3); it also equals the
sum of the findings' `risk_score` fields, and each emitted finding's
`risk_score` equals its rule's weight times that severity value. -/
theorem analyze_risks_score_invariant :
    ∀ content : String,
      (analyze_risks content).2 = claimScore content ∧
      (analyze_risks content).2 = ((analyze_risks content).1.map (fun f => f.risk_score)).sum ∧
      ∀ f ∈ (analyze_risks content).1, ∃ cfg ∈ risk_patterns,
        f.category = cfg.category ∧ f.severity = cfg.severity ∧
        f.risk_score = cfg.weight * sevVal cfg.severity := by
  intro content
  have he := analyze_risks_eq content
  have h2 : (analyze_risks content).2 = claimScore content := by rw [he]
  have h1 : (analyze_risks content).1 = allFindings content := by rw [he]
  refine ⟨h2, ?_, ?_⟩
  · rw [h1, h2]
    have hsum : ((allFindings content).map (fun f => f.risk_score)).sum = claimScore content :=
      flatten_score_sum RuleConfig.patterns (fun pat => finditer pat content.data)
        (fun cfg => cfg.weight * sevVal cfg.severity)
        (fun cfg m => mkFinding cfg content.data m)
        (fun f => f.risk_score) (fun cfg m => rfl) risk_patterns
    exact hsum.symm
  · rw [h1]
    intro f hf
    have hmem := mem_scan_flatten RuleConfig.patterns (fun pat => finditer pat content.data)
      (fun cfg m => mkFinding cfg content.data m) risk_patterns f hf
    obtain ⟨cfg, hcfg, pat, hpat, m, hm, rfl⟩ := hmem
    exact ⟨cfg, hcfg, rfl, rfl, rfl⟩

/-- Witness for C1 at a concrete input: the finding from the
`trade.*secrets` match of the confidentiality rule. -/
theorem analyze_risks_score_invariant_witness :
    ∃ cfg ∈ risk_patterns,
      (mkFinding confidentiality ("  trade secrets" : String).data (2, 15)).category
        = cfg.category ∧
      (mkFinding confidentiality ("  trade secrets" : String).data (2, 15)).severity
        = cfg.severity ∧
      (mkFinding confidentiality ("  trade secrets" : String).data (2, 15)).risk_score
        = cfg.weight * sevVal cfg.severity :=
  (analyze_risks_score_invariant "  trade secrets").2.2 _ (by decide)

/-- Claim C2: `calculate_risk_level` maps every score to exactly one of
the five levels via the fixed thresholds 20/15/10/5, the mapping is
monotone in the score, and it is exhaustive over the five level names. -/
theorem calculate_risk_level_thresholds :
    (∀ s : Nat, 20 ≤ s → calculate_risk_level s = "CRITICAL") ∧
    (∀ s : Nat, 15 ≤ s → s < 20 → calculate_risk_level s = "HIGH") ∧
    (∀ s : Nat, 10 ≤ s → s < 15 → calculate_risk_level s = "MEDIUM") ∧
    (∀ s : Nat, 5 ≤ s → s < 10 → calculate_risk_level s = "LOW") ∧
    (∀ s : Nat, s < 5 → calculate_risk_level s = "MINIMAL") ∧
    (∀ s t : Nat, s ≤ t →
      levelRank (calculate_risk_level s) ≤ levelRank (calculate_risk_level t)) ∧
    (∀ s : Nat, calculate_risk_level s ∈ ["MINIMAL", "LOW", "MEDIUM", "HIGH", "CRITICAL"]) := by
  refine ⟨?_, ?_, ?_, ?_, ?_, ?_, ?_⟩
  · intro s h; unfold calculate_risk_level; split_ifs <;> first | rfl | omega
  · intro s h h2; unfold calculate_risk_level; split_ifs <;> first | rfl | omega
  · intro s h h2; unfold calculate_risk_level; split_ifs <;> first | rfl | omega
  · intro s h h2; unfold calculate_risk_level; split_ifs <;> first | rfl | omega
  · intro s h; unfold calculate_risk_level; split_ifs <;> first | rfl | omega
  · intro s t hst; unfold calculate_risk_level; split_ifs <;> first | decide | omega
  · intro s; unfold calculate_risk_level; split_ifs <;> simp

/-- Witness for C2 at concrete scores in each threshold band. -/
theorem calculate_risk_level_thresholds_witness :
    calculate_risk_level 23 = "CRITICAL" ∧ calculate_risk_level 16 = "HIGH" ∧
    calculate_risk_level 12 = "MEDIUM" ∧ calculate_risk_level 7 = "LOW" ∧
    calculate_risk_level 3 = "MINIMAL" ∧
    levelRank (calculate_risk_level 3) ≤ levelRank (calculate_risk_level 23) :=
  ⟨calculate_risk_level_thresholds.1 23 (by decide),
   calculate_risk_level_thresholds.2.1 16 (by decide) (by decide),
   calculate_risk_level_thresholds.2.2.1 12 (by decide) (by decide),
   calculate_risk_level_thresholds.2.2.2.1 7 (by decide) (by decide),
   calculate_risk_level_thresholds.2.2.2.2.1 3 (by decide),
   calculate_risk_level_thresholds.2.2.2.2.2.1 3 23 (by decide)⟩

/-- Claim C4: the scanner emits exactly one finding per regex match, with
no deduplication or overlap suppression, ordered by catalog iteration
order (rule by rule, pattern by pattern), not by document position: the
finding list is precisely the flattened per-rule, per-pattern, per-match
map, and its length is the total match count over the catalog. -/
theorem one_finding_per_match_catalog_order :
    ∀ content : String,
      (analyze_risks content).1 = allFindings content ∧
      (analyze_risks content).1.length =
        (risk_patterns.map (fun cfg =>
          (cfg.patterns.map (fun pat => (finditer pat content.data).length)).sum)).sum := by
  intro content
  have h1 : (analyze_risks content).1 = allFindings content := by rw [analyze_risks_eq]
  refine ⟨h1, ?_⟩
  rw [h1]
  exact flatten_scan_length RuleConfig.patterns (fun pat => finditer pat content.data)
    (fun cfg m => mkFinding cfg content.data m) risk_patterns

/-- Claim C6: the scan is deterministic — the same text always yields the
same ordered finding sequence and the same score (the embedding is a pure
function of the text; the matching path has no randomness). -/
theorem analyze_risks_deterministic :
    ∀ c₁ c₂ : String, c₁ = c₂ →
      analyze_risks c₁ = analyze_risks c₂ ∧
      (analyze_risks c₁).1 = (analyze_risks c₂).1 ∧
      (analyze_risks c₁).2 = (analyze_risks c₂).2 := by
  intro c₁ c₂ h
  subst h
  exact ⟨rfl, rfl, rfl⟩

/-- Witness for C6 at a concrete text. -/
theorem analyze_risks_deterministic_witness :
    analyze_risks "payment due in 30 days" = analyze_risks "payment due in 30 days" ∧
    (analyze_risks "payment due in 30 days").1 = (analyze_risks "payment due in 30 days").1 ∧
    (analyze_risks "payment due in 30 days").2 = (analyze_risks "payment due in 30 days").2 :=
  analyze_risks_deterministic "payment due in 30 days" "payment due in 30 days" rfl

/-- Claim C3: whenever the external-model bridge is unreachable or
misconfigured — missing (or empty) API key, transport failure, or a
non-success HTTP status — `analyze_risks_with_ai` returns exactly the
local pattern-matching result `analyze_risks` on the same text, for every
text and every body parser; the bridge's error is absorbed, never
propagated. -/
theorem ai_fallback_eq_local :
    ∀ (response : Except Unit (Nat × String)) (parseBody : String → String → HFAnalysis)
      (content : String),
      (analyze_risks_with_ai none response parseBody content = analyze_risks content) ∧
      (analyze_risks_with_ai (some "") response parseBody content = analyze_risks content) ∧
      (∀ k : String,
        analyze_risks_with_ai (some k) (Except.error ()) parseBody content
          = analyze_risks content) ∧
      (∀ (k body : String) (st : Nat), st ≠ 200 →
        analyze_risks_with_ai (some k) (Except.ok (st, body)) parseBody content
          = analyze_risks content) := by
  intro response parseBody content
  refine ⟨rfl, ?_, ?_, ?_⟩
  · simp [analyze_risks_with_ai, analyze_with_huggingface]
  · intro k
    by_cases hk : k = "" <;>
      simp [analyze_risks_with_ai, analyze_with_huggingface, hk]
  · intro k body st hst
    by_cases hk : k = "" <;>
      simp [analyze_risks_with_ai, analyze_with_huggingface, hk, hst]

/-- Witness for C3: a bad status, a transport error, and an empty key on a
concrete text all fall back to the local result. -/
theorem ai_fallback_eq_local_witness :
    analyze_risks_with_ai (some "key") (Except.ok (500, "err"))
        (fun _ _ => ⟨[], 0⟩) "payment due in 30 days"
      = analyze_risks "payment due in 30 days" ∧
    analyze_risks_with_ai (some "key") (Except.error ())
        (fun _ _ => ⟨[], 0⟩) "payment due in 30 days"
      = analyze_risks "payment due in 30 days" :=
  ⟨(ai_fallback_eq_local (Except.ok (500, "err")) (fun _ _ => ⟨[], 0⟩)
      "payment due in 30 days").2.2.2 "key" "err" 500 (by decide),
   (ai_fallback_eq_local (Except.error ()) (fun _ _ => ⟨[], 0⟩)
      "payment due in 30 days").2.2.1 "key"⟩

/-- Claim C5: `parse_text` attempts UTF-8 first, then Latin-1, and only
then returns the explicit decode-failure string instead of raising; a byte
sequence that is valid Latin-1 but invalid UTF-8 (such as `[255]`) is
decoded successfully by the fallback decoder. -/
theorem parse_text_decoding_fallback :
    (∀ (bs : List Nat) (cs : List Char),
      utf8Decode bs = some cs → parse_text bs = String.mk cs) ∧
    (∀ bs : List Nat, (∀ b ∈ bs, b < 256) → utf8Decode bs = none →
      parse_text bs = String.mk (bs.map Char.ofNat)) ∧
    (utf8Decode [255] = none ∧ latin1Decode [255] = some [Char.ofNat 255] ∧
      parse_text [255] = String.mk [Char.ofNat 255]) := by
  refine ⟨?_, ?_, by decide⟩
  · intro bs cs h
    unfold parse_text
    rw [h]
  · intro bs hb h
    unfold parse_text
    rw [h]
    unfold latin1Decode
    have hall : (bs.all fun b => decide (b < 256)) = true := by
      rw [List.all_eq_true]
      intro x hx
      exact decide_eq_true (hb x hx)
    rw [if_pos hall]

/-- Witness for C5: an ASCII byte decodes on the UTF-8 path, and the
invalid-UTF-8 byte 255 decodes on the Latin-1 fallback path. -/
theorem parse_text_decoding_fallback_witness :
    parse_text [72] = String.mk [Char.ofNat 72] ∧
    parse_text [255] = String.mk ([255].map Char.ofNat) :=
  ⟨parse_text_decoding_fallback.1 [72] [Char.ofNat 72] (by decide),
   parse_text_decoding_fallback.2.1 [255] (by decide) (by decide)⟩

/-- Claim C10: the basic-endpoint analyzer `analyze_contract_content` in
`src/main.py` increments the score by the severity value alone (low=1,
medium=2, high=3) per match, with no rule-weight factor, and maps the
score to exactly three levels — score ≥ 10 gives HIGH, score ≥ 5 gives
MEDIUM, otherwise LOW — so it never returns CRITICAL or MINIMAL. -/
theorem main_analyzer_score_and_levels :
    ∀ content : String,
      (Main.analyze_contract_content content).risk_score = mainClaimScore content ∧
      (Main.analyze_contract_content content).risk_level =
        (if 10 ≤ mainClaimScore content then "HIGH"
         else if 5 ≤ mainClaimScore content then "MEDIUM" else "LOW") ∧
      (Main.analyze_contract_content content).risk_level ∈ ["HIGH", "MEDIUM", "LOW"] := by
  intro content
  have hs := (main_scan_eq content).2
  have hl : (Main.analyze_contract_content content).risk_level =
      (if 10 ≤ (Main.analyze_contract_content content).risk_score then "HIGH"
       else if 5 ≤ (Main.analyze_contract_content content).risk_score then "MEDIUM"
       else "LOW") := rfl
  rw [hs] at hl
  refine ⟨hs, hl, ?_⟩
  rw [hl]
  split_ifs <;> simp

/-- Claim C8 (amended): every finding's context is the clipped window
around its match span — 100 characters on each side in the enhanced
scanner, 50 in the basic endpoint — with leading and trailing whitespace
stripped (`content[start:end].strip()`); `windowClause` is exactly the
stripped form of the raw clipped substring `specWindow`. -/
theorem context_window_stripped :
    (∀ (cs : List Char) (s e w : Nat),
      windowClause cs s e w = String.mk (pyStrip (specWindow cs s e w).data)) ∧
    (∀ content : String, ∀ f ∈ (analyze_risks content).1, ∃ cfg ∈ risk_patterns,
      ∃ pat ∈ cfg.patterns, ∃ m ∈ finditer pat content.data,
        f.clause = windowClause content.data m.1 m.2 100) ∧
    (∀ content : String, ∀ r ∈ (Main.analyze_contract_content content).risks,
      ∃ cfg ∈ Main.risk_patterns, ∃ pat ∈ cfg.patterns, ∃ m ∈ finditer pat content.data,
        r.clause = windowClause content.data m.1 m.2 50) := by
  refine ⟨fun cs s e w => rfl, ?_, ?_⟩
  · intro content f hf
    have h1 : (analyze_risks content).1 = allFindings content := by rw [analyze_risks_eq]
    rw [h1] at hf
    obtain ⟨cfg, hcfg, pat, hpat, m, hm, rfl⟩ :=
      mem_scan_flatten RuleConfig.patterns (fun pat => finditer pat content.data)
        (fun cfg m => mkFinding cfg content.data m) risk_patterns f hf
    exact ⟨cfg, hcfg, pat, hpat, m, hm, rfl⟩
  · intro content r hr
    rw [(main_scan_eq content).1] at hr
    obtain ⟨cfg, hcfg, pat, hpat, m, hm, rfl⟩ :=
      mem_scan_flatten Main.MainRule.patterns (fun pat => finditer pat content.data)
        (fun cfg m => Main.mkMainRisk cfg content.data m) Main.risk_patterns r hr
    exact ⟨cfg, hcfg, pat, hpat, m, hm, rfl⟩

/-- Counterexample to C8 as stated: on the text `"  trade secrets"` the
confidentiality rule's `trade.*secrets` pattern matches at span (2, 15);
the raw clipped window around that span is the whole text
`"  trade secrets"`, but the emitted finding's context is the stripped
`"trade secrets"` — the context is not the raw clipped substring. -/
theorem context_window_spec_counterexample :
    ((analyze_risks "  trade secrets").1.map (fun f => f.clause)) = ["trade secrets"] ∧
    finditer pat_trade_secrets ("  trade secrets" : String).data = [(2, 15)] ∧
    specWindow ("  trade secrets" : String).data 2 15 100 = "  trade secrets" ∧
    (("trade secrets" : String) == "  trade secrets") = false := by
  refine ⟨by decide, by decide, by decide, by decide⟩

/-- Witness for C8 (amended) at the concrete text `"  trade secrets"`,
for both the enhanced scanner (100-character window) and the basic
endpoint (50-character window). -/
theorem context_window_stripped_witness :
    (∃ cfg ∈ risk_patterns, ∃ pat ∈ cfg.patterns,
      ∃ m ∈ finditer pat ("  trade secrets" : String).data,
        (mkFinding confidentiality ("  trade secrets" : String).data (2, 15)).clause
          = windowClause ("  trade secrets" : String).data m.1 m.2 100) ∧
    (∃ cfg ∈ Main.risk_patterns, ∃ pat ∈ cfg.patterns,
      ∃ m ∈ finditer pat ("  trade secrets" : String).data,
        (Main.mkMainRisk Main.confidentiality ("  trade secrets" : String).data (2, 15)).clause
          = windowClause ("  trade secrets" : String).data m.1 m.2 50) :=
  ⟨context_window_stripped.2.1 "  trade secrets" _ (by decide),
   context_window_stripped.2.2 "  trade secrets" _ (by decide)⟩

/-- The sample contract text of the specification's testable properties. -/
def sample_contract_text : String :=
  "Payment is due within 30 days. Late payment incurs a 5% penalty. Total liability shall not exceed $50,000."

/-- Claim C7: on the sample contract text, `analyze_risks` produces at
least one Payment Terms finding, at least one Liability Limitations
finding whose monetary annotation is `$50,000`, and a strictly positive
aggregate score. -/
theorem sample_contract_findings :
    ((analyze_risks sample_contract_text).1.any
        (fun f => f.category == "Payment Terms")) = true ∧
    ((analyze_risks sample_contract_text).1.any
        (fun f => f.category == "Liability Limitations" &&
          f.monetary_value == some "$50,000")) = true ∧
    0 < (analyze_risks sample_contract_text).2 := by
  refine ⟨by decide, by decide, by decide⟩

/-- The no-risk conversation text of the specification's testable properties. -/
def plain_conversation_text : String := "This is a plain conversation with no legal terms."

/-- Claim C9: on the plain conversation text the scanner produces zero
findings and zero score, and the summary generated for zero findings
contains the phrase "No significant risks". -/
theorem plain_text_no_findings :
    analyze_risks plain_conversation_text = ([], 0) ∧
    containsSub ("No significant risks" : String).data
      (generate_summary [] [] 0).data = true := by
  refine ⟨by decide, by decide⟩
